import Mathlib

/-!
Shallow embedding of the Adaptive Retrieval Orchestrator core of the
ExtendYourMemory repository (backend/rag_pipeline.py,
backend/llm_query_generator.py, backend/adaptive_faiss_optimizer.py),
together with theorems settling the frozen claims about it.

Python floats are modelled as rationals, Python ints as naturals or
integers (as noted per definition), Python strings as `String` (with
the string operations carried out on the character list, so that they
compute by structural recursion), and Python dicts whose key set
varies as association lists.
-/

/-- Python's substring test `pat in s` on character lists: `true` iff
`pat` occurs contiguously in `s`. -/
def listContainsSub (pat : List Char) : List Char → Bool
  | [] => pat.isEmpty
  | c :: cs => pat.isPrefixOf (c :: cs) || listContainsSub pat cs

/-- `strContains s pat` models Python's `pat in s`. -/
def strContains (s pat : String) : Bool :=
  listContainsSub pat.toList s.toList

/-- Python's `s.lower()` (the source only lower-cases ASCII and
Japanese text, on which `Char.toLower` agrees with Python). -/
def lowerL (l : List Char) : List Char :=
  l.map Char.toLower

/-- Python's `s.strip()`: drop leading and trailing whitespace. -/
def trimL (l : List Char) : List Char :=
  ((l.dropWhile Char.isWhitespace).reverse.dropWhile Char.isWhitespace).reverse

/-- Splitter underlying Python's `s.split(sep)` and `s.split()`:
cut at every character satisfying `p`. -/
def splitPredAux (p : Char → Bool) : List Char → List Char → List (List Char)
  | [], acc => [acc.reverse]
  | c :: cs, acc =>
      if p c then acc.reverse :: splitPredAux p cs []
      else splitPredAux p cs (c :: acc)

/-- Split a character list at every character satisfying `p`
(empty pieces kept, as Python's `s.split(sep)` does). -/
def splitPred (p : Char → Bool) (l : List Char) : List (List Char) :=
  splitPredAux p l []

/-- Python's `s.split()` with no separator: split on whitespace,
dropping empty pieces. -/
def pyWords (l : List Char) : List (List Char) :=
  (splitPred Char.isWhitespace l).filter (fun w => ¬ w.isEmpty)

/-- Python's `int(s)` on an already stripped token: optional sign
followed by one or more digits, anything else raises `ValueError`
(modelled as `none`). -/
def pyParseInt (s : List Char) : Option ℤ :=
  let core : List Char → Option ℤ := fun ds =>
    if ds.isEmpty ∨ ¬ ds.all Char.isDigit then none
    else some ((ds.foldl (fun a c => a * 10 + (c.toNat - '0'.toNat)) 0 : ℕ) : ℤ)
  match s with
  | '-' :: ds => (core ds).map (fun n => -n)
  | '+' :: ds => core ds
  | ds => core ds

/-- Generic first-occurrence deduplication by a key function with an
already-seen accumulator: the shape of the `seen_content` /
`seen` set loops in rag_pipeline.py and llm_query_generator.py. -/
def dedupBy {α β : Type} [DecidableEq β] (f : α → β) (seen : List β) :
    List α → List α
  | [] => []
  | x :: xs =>
      if f x ∈ seen then dedupBy f seen xs
      else x :: dedupBy f (f x :: seen) xs

theorem dedupBy_sublist {α β : Type} [DecidableEq β] (f : α → β)
    (seen : List β) (l : List α) : (dedupBy f seen l).Sublist l := by
  induction l generalizing seen with
  | nil => simp [dedupBy]
  | cons x xs ih =>
      simp only [dedupBy]
      split
      · exact (ih seen).trans (List.sublist_cons_self x xs)
      · exact (ih (f x :: seen)).cons₂ x

theorem key_not_seen_of_mem_dedupBy {α β : Type} [DecidableEq β]
    (f : α → β) {seen : List β} {l : List α} {x : α}
    (hx : x ∈ dedupBy f seen l) : f x ∉ seen := by
  induction l generalizing seen with
  | nil => simp [dedupBy] at hx
  | cons y ys ih =>
      simp only [dedupBy] at hx
      split at hx
      · exact ih hx
      · rcases List.mem_cons.mp hx with h | h
        · subst h; assumption
        · exact fun hs => ih h (List.mem_cons_of_mem _ hs)

theorem pairwise_dedupBy {α β : Type} [DecidableEq β] (f : α → β)
    (seen : List β) (l : List α) :
    (dedupBy f seen l).Pairwise (fun a b => f a ≠ f b) := by
  induction l generalizing seen with
  | nil => simp [dedupBy]
  | cons x xs ih =>
      simp only [dedupBy]
      split
      · exact ih seen
      · refine List.Pairwise.cons (fun y hy => ?_) (ih (f x :: seen))
        have := key_not_seen_of_mem_dedupBy f hy
        simp only [List.mem_cons] at this
        exact fun h => this (Or.inl h.symm)

/-- A raw document as the pipeline sees it: `page_content` plus the
metadata fields the quality filter and the quality tracker read
(`metadata.get` with its default is modelled by storing the retrieved
value directly). -/
structure Doc where
  page_content : String
  url : String
  title : String
  source : String
deriving DecidableEq, Repr

/-- URL patterns of rag_pipeline.RAGPipeline._is_search_result_page. -/
def searchUrlPatterns : List String :=
  ["google.com/search", "google.com/search?", "google.co.jp/search",
   "bing.com/search", "yahoo.com/search", "youtube.com",
   "duckduckgo.com/", "baidu.com/s", "yandex.com/search"]

/-- Title patterns of rag_pipeline.RAGPipeline._is_search_result_page. -/
def searchTitlePatterns : List String :=
  ["- google 検索", "- google search", "- bing search", "- yahoo search",
   "search results", "検索結果"]

/-- Content indicators of rag_pipeline.RAGPipeline._is_search_result_page. -/
def searchContentIndicators : List String :=
  ["did you mean", "search instead for", "showing results for",
   "about x results", "もしかして", "検索結果", "results for"]

/-- rag_pipeline.RAGPipeline._is_search_result_page: `title` and
`content` arrive already lower-cased by the caller; the URL is
lower-cased here, as in the source. -/
def isSearchResultPage (url title content : List Char) : Bool :=
  searchUrlPatterns.any (fun p => listContainsSub p.toList (lowerL url)) ||
  searchTitlePatterns.any (fun p => listContainsSub p.toList title) ||
  searchContentIndicators.any
    (fun ind => listContainsSub ind.toList content && decide (content.length < 1000))

/-- Error-page markers of rag_pipeline.RAGPipeline._is_low_quality_content. -/
def errorIndicators : List String :=
  ["404 not found", "403 forbidden", "access denied", "page not found",
   "server error", "アクセスが拒否されました", "ページが見つかりません",
   "エラーが発生しました"]

/-- Navigation-only markers of rag_pipeline.RAGPipeline._is_low_quality_content. -/
def navOnlyIndicators : List String :=
  ["home about contact", "ホーム について お問い合わせ", "menu navigation"]

/-- rag_pipeline.RAGPipeline._is_low_quality_content (content arrives
lower-cased): too-short content, error-page markers, navigation-only
pages, or mostly-duplicate sentences. -/
def isLowQualityContent (content _title : List Char) : Bool :=
  if (trimL content).length < 100 then true
  else if errorIndicators.any (fun ind => listContainsSub ind.toList content) then true
  else if (pyWords content).length < 50 &&
      navOnlyIndicators.any (fun ind => listContainsSub ind.toList content) then true
  else
    let sentences := splitPred (fun c => c = '.') content
    if 5 < sentences.length then
      let uniqueSentences :=
        ((sentences.filter (fun s => ¬ (trimL s).isEmpty)).map
          (fun s => lowerL (trimL s))).dedup
      decide ((uniqueSentences.length : ℚ) / (sentences.length : ℚ) < 1/2)
    else false

/-- Domain denylist of rag_pipeline.RAGPipeline._is_blocked_domain. -/
def blockedDomains : List String :=
  ["twitter.com", "facebook.com", "instagram.com", "tiktok.com",
   "linkedin.com", "pinterest.com", "reddit.com", "youtube.com/watch",
   "localhost", "127.0.0.1"]

/-- rag_pipeline.RAGPipeline._is_blocked_domain. -/
def isBlockedDomain (url : List Char) : Bool :=
  blockedDomains.any (fun d => listContainsSub d.toList (lowerL url))

/-- A discard reason tracked by
rag_pipeline.RAGPipeline._filter_low_quality_sources. -/
inductive DiscardReason
  | search_results
  | low_content
  | blocked_domains
deriving DecidableEq, Repr

/-- The per-document decision of
rag_pipeline.RAGPipeline._filter_low_quality_sources: the three
predicates tried in source order, the first match giving the discard
reason, `none` meaning the document is kept. -/
def discardReason (d : Doc) : Option DiscardReason :=
  let url := d.url.toList
  let title := lowerL d.title.toList
  let content := lowerL d.page_content.toList
  if isSearchResultPage url title content then some .search_results
  else if isLowQualityContent content title then some .low_content
  else if isBlockedDomain url then some .blocked_domains
  else none

/-- rag_pipeline.RAGPipeline._filter_low_quality_sources: keep exactly
the documents no predicate discards (in the embedding the predicates
are total, so the fail-open exception branch is unreachable). -/
def filterLowQualitySources (docs : List Doc) : List Doc :=
  docs.filter (fun d => (discardReason d).isNone)

/-- The removal statistics dict of _filter_low_quality_sources. -/
structure FilterStats where
  search_results : ℕ
  low_content : ℕ
  blocked_domains : ℕ
deriving DecidableEq, Repr

/-- The removal counts accumulated by _filter_low_quality_sources. -/
def filterStats (docs : List Doc) : FilterStats :=
  { search_results :=
      (docs.filter (fun d => discardReason d = some .search_results)).length
    low_content :=
      (docs.filter (fun d => discardReason d = some .low_content)).length
    blocked_domains :=
      (docs.filter (fun d => discardReason d = some .blocked_domains)).length }

/-- CLAIM C6: the document quality filter is idempotent:
`filter (filter docs) = filter docs` for every document sequence. -/
theorem filter_low_quality_sources_idempotent (docs : List Doc) :
    filterLowQualitySources (filterLowQualitySources docs) =
      filterLowQualitySources docs := by
  simp [filterLowQualitySources, List.filter_filter]

/-- The "404 Not Found" document of the C7 scenario: that exact
content, empty URL and title. -/
def doc404 : Doc := { page_content := "404 Not Found", url := "", title := "", source := "" }

/-- CLAIM C7: the "404 Not Found" document is discarded by the quality
filter with reason low-quality-content, and the search-result-page
predicate is false on it. -/
theorem doc404_filtered_as_low_quality :
    discardReason doc404 = some .low_content ∧
    isSearchResultPage "".toList "".toList "404 not found".toList = false ∧
    filterLowQualitySources [doc404] = [] ∧
    filterStats [doc404] =
      { search_results := 0, low_content := 1, blocked_domains := 0 } := by
  refine ⟨by decide, by decide, by decide, by decide⟩

/-- A retrieved chunk with the metadata the retriever attaches
(rag_pipeline.semantic_search): similarity and raw distance plus the
expanded query that matched it. -/
structure ScoredChunk where
  content : String
  similarity_score : ℚ
  distance : ℚ
  matched_query : String
deriving Repr

instance : Inhabited ScoredChunk := ⟨⟨"", 0, 0, ""⟩⟩

/-- The descending-similarity order used by the retriever
(`sort(key=similarity_score, reverse=True)`). -/
def chunkGE (a b : ScoredChunk) : Prop :=
  b.similarity_score ≤ a.similarity_score

instance : DecidableRel chunkGE := fun a b =>
  inferInstanceAs (Decidable (b.similarity_score ≤ a.similarity_score))

instance : IsTotal ScoredChunk chunkGE :=
  ⟨fun a b => le_total b.similarity_score a.similarity_score⟩

instance : IsTrans ScoredChunk chunkGE :=
  ⟨fun _ _ _ hab hbc => le_trans hbc hab⟩

/-- The content fingerprint used for deduplication:
`hash(doc.page_content[:100])`, modelled as the leading slice itself. -/
def fingerprint (c : ScoredChunk) : List Char :=
  c.content.toList.take 100

/-- rag_pipeline.RAGPipeline._final_relevance_check. The
text-generation collaborator is modelled by `llmReply`: `none` when
the collaborator is unavailable (or its call fails), otherwise the
reply text. Comma-separated integers are parsed from the reply,
non-numeric tokens and out-of-range indices discarded; zero usable
indices fall back to the top 5, an unavailable collaborator to the
top 10. -/
def finalRelevanceCheck (llmReply : Option String)
    (documents : List ScoredChunk) : List ScoredChunk :=
  match llmReply with
  | none => documents.take 10
  | some reply =>
      let numbers := splitPred (fun c => c = ',') (trimL reply.toList)
      let selected := numbers.filterMap (fun numStr =>
        match pyParseInt (trimL numStr) with
        | some idx =>
            if 0 ≤ idx ∧ idx < (documents.length : ℤ) then some idx.toNat
            else none
        | none => none)
      if ¬ selected.isEmpty then
        selected.map (fun i => documents.getD i default)
      else documents.take 5

/-- The accumulation loop of rag_pipeline.semantic_search. The vector
index collaborator is modelled by `queryResults`: for each expanded
query, the list of (chunk content, raw distance) pairs its top-k
similarity query returned. Each hit is converted to a similarity
`1/(1+distance)` and kept only when it reaches the threshold. -/
def collectScored (queryResults : List (String × List (String × ℚ)))
    (similarityThreshold : ℚ) : List ScoredChunk :=
  queryResults.flatMap (fun qr =>
    qr.2.filterMap (fun dc =>
      let similarity : ℚ := 1 / (1 + dc.2)
      if similarityThreshold ≤ similarity then
        some { content := dc.1, similarity_score := similarity,
               distance := dc.2, matched_query := qr.1 }
      else none))

/-- The fusion step of rag_pipeline.semantic_search: sort all
accumulated hits by similarity descending, then deduplicate by the
leading-slice fingerprint, keeping the first (highest-scored)
occurrence. -/
def fuseDedup (collected : List ScoredChunk) : List ScoredChunk :=
  dedupBy fingerprint [] (List.insertionSort chunkGE collected)

/-- rag_pipeline.RAGPipeline.semantic_search, main (scored) path:
collect and threshold per-query hits, fuse and deduplicate, run the
final relevance check when an original query is supplied and more
than 10 chunks survive, and cap the output at 20. -/
def semanticSearch (queryResults : List (String × List (String × ℚ)))
    (similarityThreshold : ℚ) (originalQuery : Option String)
    (llmReply : Option String) (maxDocsForCheck : ℕ) : List ScoredChunk :=
  let uniqueDocs := fuseDedup (collectScored queryResults similarityThreshold)
  let uniqueDocs :=
    if (originalQuery.getD "") ≠ "" ∧ 10 < uniqueDocs.length then
      finalRelevanceCheck llmReply (uniqueDocs.take maxDocsForCheck)
    else uniqueDocs
  uniqueDocs.take 20

/-- The 12 candidate chunks of the C8 scenario, in descending
similarity order (so "top n by similarity" is "first n"). -/
def docs12 : List ScoredChunk :=
  [⟨"c0", 12/12, 0, "q"⟩, ⟨"c1", 11/12, 0, "q"⟩, ⟨"c2", 10/12, 0, "q"⟩,
   ⟨"c3", 9/12, 0, "q"⟩, ⟨"c4", 8/12, 0, "q"⟩, ⟨"c5", 7/12, 0, "q"⟩,
   ⟨"c6", 6/12, 0, "q"⟩, ⟨"c7", 5/12, 0, "q"⟩, ⟨"c8", 4/12, 0, "q"⟩,
   ⟨"c9", 3/12, 0, "q"⟩, ⟨"c10", 2/12, 0, "q"⟩, ⟨"c11", 1/12, 0, "q"⟩]

/-- CLAIM C8: on the 12-candidate list, reply "2,5,9,1" selects
exactly the candidates at indices 2, 5, 9, 1 in that order, and reply
"banana" (zero usable indices) falls back to the top 5 by similarity
(the first 5, the list being sorted descending). -/
theorem final_relevance_check_scenario :
    List.Sorted chunkGE docs12 ∧
    docs12.length = 12 ∧
    finalRelevanceCheck (some "2,5,9,1") docs12 =
      [docs12.getD 2 default, docs12.getD 5 default,
       docs12.getD 9 default, docs12.getD 1 default] ∧
    finalRelevanceCheck (some "banana") docs12 = docs12.take 5 := by
  refine ⟨?_, rfl, rfl, rfl⟩
  norm_num [docs12, List.sorted_cons, chunkGE]

theorem collectScored_threshold (queryResults : List (String × List (String × ℚ)))
    (thr : ℚ) : ∀ c ∈ collectScored queryResults thr, thr ≤ c.similarity_score := by
  intro c hc
  simp only [collectScored, List.mem_flatMap, List.mem_filterMap] at hc
  obtain ⟨qr, _, dc, _, h⟩ := hc
  split at h
  · rename_i hthr
    cases h
    exact hthr
  · exact absurd h (by simp)

theorem sorted_fuseDedup (l : List ScoredChunk) :
    List.Sorted chunkGE (fuseDedup l) :=
  List.Pairwise.sublist (dedupBy_sublist fingerprint [] _)
    (List.sorted_insertionSort chunkGE l)

theorem mem_fuseDedup {c : ScoredChunk} {l : List ScoredChunk}
    (hc : c ∈ fuseDedup l) : c ∈ l :=
  ((List.perm_insertionSort chunkGE l).subset
    ((dedupBy_sublist fingerprint [] _).subset hc))

/-- The 12-hit index reply of the C1 counterexample: one expanded
query, six chunks at distance 0 (similarity 1) and six at distance 1
(similarity 1/2), all with distinct content. -/
def qrs1 : List (String × List (String × ℚ)) :=
  [("q1", [("c0", 0), ("c1", 0), ("c2", 0), ("c3", 0), ("c4", 0), ("c5", 0),
           ("c6", 1), ("c7", 1), ("c8", 1), ("c9", 1), ("c10", 1), ("c11", 1)])]

theorem collectScored_qrs1 : collectScored qrs1 (3/10) =
    [⟨"c0", 1/(1+0), 0, "q1"⟩, ⟨"c1", 1/(1+0), 0, "q1"⟩, ⟨"c2", 1/(1+0), 0, "q1"⟩,
     ⟨"c3", 1/(1+0), 0, "q1"⟩, ⟨"c4", 1/(1+0), 0, "q1"⟩, ⟨"c5", 1/(1+0), 0, "q1"⟩,
     ⟨"c6", 1/(1+1), 1, "q1"⟩, ⟨"c7", 1/(1+1), 1, "q1"⟩, ⟨"c8", 1/(1+1), 1, "q1"⟩,
     ⟨"c9", 1/(1+1), 1, "q1"⟩, ⟨"c10", 1/(1+1), 1, "q1"⟩, ⟨"c11", 1/(1+1), 1, "q1"⟩] := by
  norm_num [collectScored, qrs1, List.flatMap_cons, List.flatMap_nil,
    List.filterMap_cons, List.filterMap_nil]

theorem fuseDedup_qrs1 : fuseDedup (collectScored qrs1 (3/10)) =
    [⟨"c0", 1/(1+0), 0, "q1"⟩, ⟨"c1", 1/(1+0), 0, "q1"⟩, ⟨"c2", 1/(1+0), 0, "q1"⟩,
     ⟨"c3", 1/(1+0), 0, "q1"⟩, ⟨"c4", 1/(1+0), 0, "q1"⟩, ⟨"c5", 1/(1+0), 0, "q1"⟩,
     ⟨"c6", 1/(1+1), 1, "q1"⟩, ⟨"c7", 1/(1+1), 1, "q1"⟩, ⟨"c8", 1/(1+1), 1, "q1"⟩,
     ⟨"c9", 1/(1+1), 1, "q1"⟩, ⟨"c10", 1/(1+1), 1, "q1"⟩, ⟨"c11", 1/(1+1), 1, "q1"⟩] := by
  rw [fuseDedup, collectScored_qrs1]
  have hsort : List.insertionSort chunkGE
      [⟨"c0", 1/(1+0), 0, "q1"⟩, ⟨"c1", 1/(1+0), 0, "q1"⟩, ⟨"c2", 1/(1+0), 0, "q1"⟩,
       ⟨"c3", 1/(1+0), 0, "q1"⟩, ⟨"c4", 1/(1+0), 0, "q1"⟩, ⟨"c5", 1/(1+0), 0, "q1"⟩,
       ⟨"c6", 1/(1+1), 1, "q1"⟩, ⟨"c7", 1/(1+1), 1, "q1"⟩, ⟨"c8", 1/(1+1), 1, "q1"⟩,
       ⟨"c9", 1/(1+1), 1, "q1"⟩, ⟨"c10", 1/(1+1), 1, "q1"⟩, ⟨"c11", 1/(1+1), 1, "q1"⟩] =
      [⟨"c0", 1/(1+0), 0, "q1"⟩, ⟨"c1", 1/(1+0), 0, "q1"⟩, ⟨"c2", 1/(1+0), 0, "q1"⟩,
       ⟨"c3", 1/(1+0), 0, "q1"⟩, ⟨"c4", 1/(1+0), 0, "q1"⟩, ⟨"c5", 1/(1+0), 0, "q1"⟩,
       ⟨"c6", 1/(1+1), 1, "q1"⟩, ⟨"c7", 1/(1+1), 1, "q1"⟩, ⟨"c8", 1/(1+1), 1, "q1"⟩,
       ⟨"c9", 1/(1+1), 1, "q1"⟩, ⟨"c10", 1/(1+1), 1, "q1"⟩, ⟨"c11", 1/(1+1), 1, "q1"⟩] := by
    norm_num [List.insertionSort, List.orderedInsert, chunkGE]
  rw [hsort]
  rfl

/-- CLAIM C1, counterexample: with an original query supplied and 12
chunks surviving fusion, the final relevance check reorders the output
by the collaborator's reply "9,1", so `retrieve` returns a non-empty
list that is NOT sorted by similarity descending. -/
theorem semantic_search_not_sorted_counterexample :
    semanticSearch qrs1 (3/10) (some "budget") (some "9,1") 15 ≠ [] ∧
    ¬ List.Sorted chunkGE
      (semanticSearch qrs1 (3/10) (some "budget") (some "9,1") 15) := by
  have hmain : semanticSearch qrs1 (3/10) (some "budget") (some "9,1") 15 =
      [⟨"c9", 1/(1+1), 1, "q1"⟩, ⟨"c1", 1/(1+0), 0, "q1"⟩] := by
    simp only [semanticSearch, fuseDedup_qrs1]
    rfl
  rw [hmain]
  refine ⟨by simp, ?_⟩
  norm_num [List.sorted_cons, chunkGE]

/-- CLAIM C1, amended: for every call to `retrieve` in which the final
relevance check does not run (no original query supplied), the
returned list is sorted by similarity descending, no two returned
chunks share a content fingerprint over the first 100 characters,
every returned chunk's similarity is at least the configured floor,
and at most 20 chunks are returned. -/
theorem semantic_search_invariants (queryResults : List (String × List (String × ℚ)))
    (thr : ℚ) (llmReply : Option String) (maxDocsForCheck : ℕ) :
    List.Sorted chunkGE (semanticSearch queryResults thr none llmReply maxDocsForCheck) ∧
    List.Pairwise (fun a b => fingerprint a ≠ fingerprint b)
      (semanticSearch queryResults thr none llmReply maxDocsForCheck) ∧
    (∀ c ∈ semanticSearch queryResults thr none llmReply maxDocsForCheck,
      thr ≤ c.similarity_score) ∧
    (semanticSearch queryResults thr none llmReply maxDocsForCheck).length ≤ 20 := by
  have hs : semanticSearch queryResults thr none llmReply maxDocsForCheck =
      (fuseDedup (collectScored queryResults thr)).take 20 := by
    simp [semanticSearch]
  rw [hs]
  refine ⟨?_, ?_, ?_, ?_⟩
  · exact List.Pairwise.sublist (List.take_sublist _ _) (sorted_fuseDedup _)
  · exact List.Pairwise.sublist (List.take_sublist _ _)
      (pairwise_dedupBy fingerprint [] _)
  · intro c hc
    exact collectScored_threshold queryResults thr c
      (mem_fuseDedup (List.mem_of_mem_take hc))
  · exact List.length_take_le 20 _

/-- JSON-ish values in the analysis dicts returned by
llm_query_generator.analyze_query_intent. -/
inductive JVal
  | s (v : String)
  | arr (vs : List String)
deriving DecidableEq, Repr

/-- The default analysis dict returned by analyze_query_intent when
the collaborator call or the JSON parse fails (llm_query_generator.py
lines 65-74). -/
def defaultQueryAnalysis (userQuery : String) : List (String × JVal) :=
  [("intent", .s "情報検索"), ("complexity", .s "中程度"),
   ("time_constraint", .s "なし"),
   ("required_sources", .arr ["google_drive", "chrome_history"]),
   ("search_scope", .s "中程度"), ("domain", .s "一般"),
   ("key_concepts", .arr [userQuery]), ("search_strategy", .s "包括検索")]

/-- The reduced dict returned by analyze_query_intent when the
collaborator itself is absent (llm_query_generator.py line 25). -/
def unavailableQueryAnalysis : List (String × JVal) :=
  [("intent", .s "unknown"), ("complexity", .s "medium"),
   ("sources", .arr ["google_drive"])]

/-- llm_query_generator.LLMQueryGenerator.analyze_query_intent.
`llmAvailable` models `self.llm` being non-None; `parsed` models the
result of the robust JSON parse of the collaborator's reply, `none`
when every parsing strategy failed (or the call itself raised, which
the same except-branch catches). -/
def analyzeQueryIntent (llmAvailable : Bool) (userQuery : String)
    (parsed : Option (List (String × JVal))) : List (String × JVal) :=
  if ¬ llmAvailable then unavailableQueryAnalysis
  else
    match parsed with
    | some analysis => analysis
    | none => defaultQueryAnalysis userQuery

/-- CLAIM C2, counterexample: with the collaborator unavailable,
analyze_query_intent does not return the fixed default QueryAnalysis:
its intent is "unknown" (not information-seeking) and it carries no
search_scope at all. -/
theorem analyze_unavailable_not_default :
    (analyzeQueryIntent false "budget report Q3" none).lookup "intent" =
      some (.s "unknown") ∧
    (analyzeQueryIntent false "budget report Q3" none).lookup "search_scope" = none ∧
    analyzeQueryIntent false "budget report Q3" none ≠
      defaultQueryAnalysis "budget report Q3" := by
  refine ⟨rfl, rfl, by decide⟩

/-- CLAIM C2, amended: when the collaborator is available but its
reply cannot be parsed, analyze_query_intent returns the fixed default
QueryAnalysis (intent=情報検索/information-seeking, complexity=中程度/
medium, search_scope=中程度/medium, search_strategy=包括検索/
comprehensive); when the collaborator is unavailable it instead
returns the reduced {intent: unknown, complexity: medium, sources:
[google_drive]} dict. In every case it returns normally (the function
is total), never propagating the failure. -/
theorem analyze_query_intent_never_fails (userQuery : String)
    (parsed : Option (List (String × JVal))) (a : List (String × JVal)) :
    analyzeQueryIntent true userQuery none = defaultQueryAnalysis userQuery ∧
    (defaultQueryAnalysis userQuery).lookup "intent" = some (.s "情報検索") ∧
    (defaultQueryAnalysis userQuery).lookup "complexity" = some (.s "中程度") ∧
    (defaultQueryAnalysis userQuery).lookup "search_scope" = some (.s "中程度") ∧
    (defaultQueryAnalysis userQuery).lookup "search_strategy" = some (.s "包括検索") ∧
    analyzeQueryIntent false userQuery parsed = unavailableQueryAnalysis ∧
    analyzeQueryIntent true userQuery (some a) = a := by
  refine ⟨rfl, rfl, rfl, rfl, rfl, rfl, rfl⟩

/-- The four keyword tiers parsed from the collaborator's reply
(generate_hierarchical_keywords); a key missing from the parsed dict
is read back with `.get(key, [])` by every consumer, so it is
modelled as the empty tier. -/
structure KeywordHierarchy where
  primary_keywords : List String
  secondary_keywords : List String
  context_keywords : List String
  negative_keywords : List String
deriving DecidableEq, Repr

/-- llm_query_generator.LLMQueryGenerator.generate_hierarchical_keywords:
unavailable collaborator returns empty tiers; an unparsable reply
raises RuntimeError (modelled as `Except.error`); otherwise the parsed
hierarchy is returned unchanged — no tier capping is applied. -/
def generateHierarchicalKeywords (llmAvailable : Bool)
    (parsed : Option KeywordHierarchy) : Except String KeywordHierarchy :=
  if ¬ llmAvailable then .ok ⟨[], [], [], []⟩
  else
    match parsed with
    | some result => .ok result
    | none => .error "階層的キーワード生成に失敗しました"

/-- A parsed reply whose primary tier has 5 entries. -/
def hierarchy5 : KeywordHierarchy :=
  ⟨["k1", "k2", "k3", "k4", "k5"], [], [], []⟩

/-- CLAIM C4, counterexample: a parsed reply with 5 primary keywords
is returned with all 5 — the primary tier is not capped at 4 (nor is
any other tier capped). -/
theorem hierarchical_keywords_not_capped :
    generateHierarchicalKeywords true (some hierarchy5) = .ok hierarchy5 ∧
    ¬ hierarchy5.primary_keywords.length ≤ 4 := by
  refine ⟨rfl, by decide⟩

/-- CLAIM C4, amended: generate_hierarchical_keywords applies no
per-tier caps: with the collaborator available and a parsable reply it
returns the parsed tiers unchanged, whatever their sizes; with the
collaborator unavailable it returns four empty tiers (trivially within
the stated caps); an unparsable reply is a fatal error. -/
theorem generate_hierarchical_keywords_no_caps (h : KeywordHierarchy)
    (parsed : Option KeywordHierarchy) :
    generateHierarchicalKeywords true (some h) = .ok h ∧
    generateHierarchicalKeywords false parsed = .ok ⟨[], [], [], []⟩ ∧
    (generateHierarchicalKeywords true none).isOk = false := by
  refine ⟨rfl, rfl, rfl⟩

/-- The flattening order of generate_diverse_keywords: primary, then
secondary, then context (negative keywords are not flattened). -/
def flattenedKeywords (h : KeywordHierarchy) : List String :=
  h.primary_keywords ++ h.secondary_keywords ++ h.context_keywords

/-- The case-insensitive dedup key used by the keyword loops
(`keyword.lower()`). -/
def keywordKey (k : String) : List Char :=
  lowerL k.toList

/-- llm_query_generator.generate_diverse_keywords, step 3: flatten the
three tiers, deduplicate case-insensitively keeping the first
occurrence, cap at 20 — the `all_keywords` list. -/
def generateDiverseKeywords (h : KeywordHierarchy) : List String :=
  (dedupBy keywordKey [] (flattenedKeywords h)).take 20

/-- rag_pipeline.RAGPipeline.generate_hierarchical_keywords: re-dedup
and re-cap the `all_keywords` list received from the query generator. -/
def ragAllKeywords (h : KeywordHierarchy) : List String :=
  (dedupBy keywordKey [] (generateDiverseKeywords h)).take 20

/-- CLAIM C5: at both layers, the flattened `all_keywords` list is
case-insensitively deduplicated (no two entries share a lower-cased
form), has at most 20 entries, and is a subsequence of
primary ++ secondary ++ context — so first-seen order is preserved,
with every surviving primary keyword before every surviving secondary
keyword before every surviving context keyword. -/
theorem all_keywords_invariants (h : KeywordHierarchy) :
    List.Pairwise (fun a b => keywordKey a ≠ keywordKey b) (generateDiverseKeywords h) ∧
    (generateDiverseKeywords h).length ≤ 20 ∧
    (generateDiverseKeywords h).Sublist (flattenedKeywords h) ∧
    List.Pairwise (fun a b => keywordKey a ≠ keywordKey b) (ragAllKeywords h) ∧
    (ragAllKeywords h).length ≤ 20 ∧
    (ragAllKeywords h).Sublist (flattenedKeywords h) := by
  refine ⟨?_, ?_, ?_, ?_, ?_, ?_⟩
  · exact List.Pairwise.sublist (List.take_sublist _ _)
      (pairwise_dedupBy keywordKey [] _)
  · exact List.length_take_le 20 _
  · exact (List.take_sublist _ _).trans (dedupBy_sublist keywordKey [] _)
  · exact List.Pairwise.sublist (List.take_sublist _ _)
      (pairwise_dedupBy keywordKey [] _)
  · exact List.length_take_le 20 _
  · exact ((List.take_sublist _ _).trans (dedupBy_sublist keywordKey [] _)).trans
      ((List.take_sublist _ _).trans (dedupBy_sublist keywordKey [] _))

/-- The MMR retrieval parameters produced by
adaptive_faiss_optimizer.get_adaptive_search_params. -/
structure SearchParams where
  k : ℕ
  fetch_k : ℕ
  lambda_mult : ℚ
deriving Repr

/-- get_adaptive_search_params, intent step: the base
{k=6, fetch_k=20, λ=0.5} overridden by the search-intent presets
(`intent` etc. are the strings `query_analysis.get(...)` produced,
the Japanese tags of the analysis prompt). -/
def intentParams (intent : String) : SearchParams :=
  if intent = "事実確認" then { k := 3, fetch_k := 10, lambda_mult := 8/10 }
  else if intent = "探索的検索" then { k := 10, fetch_k := 50, lambda_mult := 2/10 }
  else if intent = "比較分析" then { k := 8, fetch_k := 30, lambda_mult := 4/10 }
  else { k := 6, fetch_k := 20, lambda_mult := 5/10 }

/-- get_adaptive_search_params, complexity step: complex queries
double fetch_k (cap 100) and add 2 to k (cap 15); simple queries halve
fetch_k (floor 5) and subtract 1 from k (floor 3). -/
def complexityAdjust (complexity : String) (p : SearchParams) : SearchParams :=
  if complexity = "複雑" then
    { p with fetch_k := min (p.fetch_k * 2) 100, k := min (p.k + 2) 15 }
  else if complexity = "単純" then
    { p with fetch_k := max (p.fetch_k / 2) 5, k := max (p.k - 1) 3 }
  else p

/-- get_adaptive_search_params, strategy step: precision raises λ by
0.2 (cap 0.9); exploratory lowers it by 0.2 (floor 0.1). -/
def strategyAdjust (search_strategy : String) (p : SearchParams) : SearchParams :=
  if search_strategy = "精密検索" then
    { p with lambda_mult := min (p.lambda_mult + 2/10) (9/10) }
  else if search_strategy = "探索検索" then
    { p with lambda_mult := max (p.lambda_mult - 2/10) (1/10) }
  else p

/-- get_adaptive_search_params, corpus-size step: below 50 documents,
k is capped at doc_count // 2 + 1 and fetch_k at doc_count. -/
def docCountAdjust (doc_count : ℕ) (p : SearchParams) : SearchParams :=
  if doc_count < 50 then
    { p with k := min p.k (doc_count / 2 + 1), fetch_k := min p.fetch_k doc_count }
  else p

/-- adaptive_faiss_optimizer.AdaptiveFAISSOptimizer.get_adaptive_search_params:
the four adjustment steps applied in source order. -/
def getAdaptiveSearchParams (intent complexity search_strategy : String)
    (doc_count : ℕ) : SearchParams :=
  docCountAdjust doc_count
    (strategyAdjust search_strategy (complexityAdjust complexity (intentParams intent)))

/-- The chunking configuration produced by
adaptive_faiss_optimizer.optimize_chunk_strategy. The overlap is a
rational because the complex-query branch multiplies it by the float
1.5. -/
structure ChunkConfig where
  chunk_size : ℕ
  chunk_overlap : ℚ
  separators : List String
deriving Repr

/-- adaptive_faiss_optimizer.AdaptiveFAISSOptimizer.optimize_chunk_strategy:
base {1000, 200}, fact-check shrinks to {500, 100}, exploratory grows
to {1500, 300}; complex queries multiply the overlap by 1.5 capped at
chunk_size // 2; the domain only changes the separator list. -/
def optimizeChunkStrategy (intent complexity domain : String) : ChunkConfig :=
  let c : ChunkConfig :=
    { chunk_size := 1000, chunk_overlap := 200,
      separators := ["\n\n", "\n", "。", ".", " ", ""] }
  let c :=
    if intent = "事実確認" then { c with chunk_size := 500, chunk_overlap := 100 }
    else if intent = "探索的検索" then { c with chunk_size := 1500, chunk_overlap := 300 }
    else c
  let c :=
    if complexity = "複雑" then
      { c with
        chunk_overlap := min (c.chunk_overlap * (3/2)) ((c.chunk_size / 2 : ℕ) : ℚ) }
    else c
  if domain = "技術" then
    { c with separators := ["```", "\n\n", "\n", "。", ".", " ", ""] }
  else if domain = "学術" then
    { c with separators := ["\n\n", "\n", "。", "．", ".", " ", ""] }
  else c

/-- CLAIM C3, counterexample: on an empty corpus (doc_count = 0) the
planner returns fetch_k = 0, violating the claimed lower bound
5 ≤ fetch_k. -/
theorem plan_fetch_k_floor_counterexample :
    (getAdaptiveSearchParams "情報検索" "中程度" "包括検索" 0).fetch_k = 0 ∧
    ¬ 5 ≤ (getAdaptiveSearchParams "情報検索" "中程度" "包括検索" 0).fetch_k := by
  refine ⟨rfl, by decide⟩

/-- CLAIM C3, amended: for every QueryAnalysis and corpus size the
planner returns chunk_overlap ≤ chunk_size / 2 and 1 ≤ k ≤ 15 and
fetch_k ≤ 100, and fetch_k ≥ min(5, corpus_size) — so the claimed
floor 5 ≤ fetch_k holds exactly when the corpus has at least 5
documents (small corpora cap fetch_k at the corpus size). -/
theorem plan_bounds (intent complexity search_strategy domain : String)
    (doc_count : ℕ) :
    (optimizeChunkStrategy intent complexity domain).chunk_overlap ≤
      ((optimizeChunkStrategy intent complexity domain).chunk_size : ℚ) / 2 ∧
    1 ≤ (getAdaptiveSearchParams intent complexity search_strategy doc_count).k ∧
    (getAdaptiveSearchParams intent complexity search_strategy doc_count).k ≤ 15 ∧
    (getAdaptiveSearchParams intent complexity search_strategy doc_count).fetch_k ≤ 100 ∧
    min 5 doc_count ≤
      (getAdaptiveSearchParams intent complexity search_strategy doc_count).fetch_k := by
  refine ⟨?_, ?_⟩
  · simp only [optimizeChunkStrategy]
    split_ifs <;> norm_num [min_def]
  · have h1 : 3 ≤ (intentParams intent).k ∧ (intentParams intent).k ≤ 10 ∧
        10 ≤ (intentParams intent).fetch_k ∧ (intentParams intent).fetch_k ≤ 50 := by
      unfold intentParams
      split_ifs <;> (try dsimp only) <;> omega
    have h2 : ∀ p : SearchParams, 3 ≤ p.k → p.k ≤ 10 → 10 ≤ p.fetch_k →
        p.fetch_k ≤ 50 →
        3 ≤ (complexityAdjust complexity p).k ∧ (complexityAdjust complexity p).k ≤ 15 ∧
        5 ≤ (complexityAdjust complexity p).fetch_k ∧
        (complexityAdjust complexity p).fetch_k ≤ 100 := by
      intro p hk1 hk2 hf1 hf2
      unfold complexityAdjust
      split_ifs <;> (try dsimp only) <;> omega
    have h3 : ∀ p : SearchParams, (strategyAdjust search_strategy p).k = p.k ∧
        (strategyAdjust search_strategy p).fetch_k = p.fetch_k := by
      intro p
      unfold strategyAdjust
      split_ifs <;> exact ⟨rfl, rfl⟩
    have h4 : ∀ p : SearchParams, 3 ≤ p.k → p.k ≤ 15 → 5 ≤ p.fetch_k →
        p.fetch_k ≤ 100 →
        1 ≤ (docCountAdjust doc_count p).k ∧ (docCountAdjust doc_count p).k ≤ 15 ∧
        (docCountAdjust doc_count p).fetch_k ≤ 100 ∧
        min 5 doc_count ≤ (docCountAdjust doc_count p).fetch_k := by
      intro p hk1 hk2 hf1 hf2
      unfold docCountAdjust
      split_ifs <;> (try dsimp only) <;> omega
    obtain ⟨hb1, hb2, hb3, hb4⟩ := h1
    obtain ⟨hc1, hc2, hc3, hc4⟩ := h2 _ hb1 hb2 hb3 hb4
    obtain ⟨hs1, hs2⟩ := h3 (complexityAdjust complexity (intentParams intent))
    have := h4 (strategyAdjust search_strategy (complexityAdjust complexity (intentParams intent)))
      (hs1 ▸ hc1) (hs1 ▸ hc2) (hs2 ▸ hc3) (hs2 ▸ hc4)
    simpa [getAdaptiveSearchParams] using this

/-- adaptive_faiss_optimizer.AdaptiveFAISSOptimizer._calculate_diversity:
0.0 for at most one result, otherwise the average of the
distinct-source ratio and the distinct-length ratio (the latter 0 when
all lengths coincide). -/
def calculateDiversity (results : List Doc) : ℚ :=
  if results.length ≤ 1 then 0
  else
    let sources := (results.map (fun d => d.source)).dedup
    let source_diversity : ℚ := (sources.length : ℚ) / (results.length : ℚ)
    let lengths := results.map (fun d => d.page_content.length)
    let length_diversity : ℚ :=
      if 1 < lengths.dedup.length then (lengths.dedup.length : ℚ) / (results.length : ℚ)
      else 0
    (source_diversity + length_diversity) / 2

/-- The length-distribution summary of
adaptive_faiss_optimizer._analyze_length_distribution (Python's
min/max over a non-empty list modelled as folds from the head). -/
structure LengthDistribution where
  avg_length : ℚ
  min_length : ℕ
  max_length : ℕ
deriving Repr

/-- adaptive_faiss_optimizer.AdaptiveFAISSOptimizer._analyze_length_distribution. -/
def analyzeLengthDistribution (results : List Doc) : LengthDistribution :=
  if results.isEmpty then { avg_length := 0, min_length := 0, max_length := 0 }
  else
    let lengths := results.map (fun d => d.page_content.length)
    { avg_length := ((lengths.sum : ℕ) : ℚ) / (results.length : ℚ)
      min_length := lengths.foldl min (lengths.headD 0)
      max_length := lengths.foldl max (lengths.headD 0) }

/-- adaptive_faiss_optimizer.AdaptiveFAISSOptimizer._analyze_source_distribution:
the source → count dict, as an association list keyed by the distinct
sources in first-seen order. -/
def analyzeSourceDistribution (results : List Doc) : List (String × ℕ) :=
  ((results.map (fun d => d.source)).dedup).map
    (fun s => (s, (results.filter (fun d => d.source = s)).length))

/-- adaptive_faiss_optimizer.AdaptiveFAISSOptimizer._calculate_quality_score,
taking the metrics fields it reads: a 0.4-weighted result-count score
(full marks for 3-10 results, a closeness-to-6.5 score otherwise, no
contribution for zero results), a 0.3-weighted diversity score, and a
0.3-weighted optional user feedback, normalized by the weights of the
terms present. -/
def calculateQualityScore (result_count : ℕ) (diversity : ℚ)
    (user_feedback : Option ℚ) : ℚ :=
  let score : ℚ :=
    if 3 ≤ result_count ∧ result_count ≤ 10 then (4/10) * 1
    else if 0 < result_count then
      (4/10) * (1 - |(result_count : ℚ) - 13/2| / 10)
    else 0
  let score := score + (3/10) * diversity
  let score :=
    match user_feedback with
    | some f => score + (3/10) * f
    | none => score
  let weights : ℚ :=
    match user_feedback with
    | some _ => 4/10 + 3/10 + 3/10
    | none => 4/10 + 3/10
  if 0 < weights then score / weights else 1/2

/-- The SearchQualityMetrics record of
adaptive_faiss_optimizer.analyze_search_quality. -/
structure SearchQualityMetrics where
  result_count : ℕ
  diversity_score : ℚ
  length_distribution : LengthDistribution
  source_distribution : List (String × ℕ)
  user_feedback : Option ℚ
  overall_quality : ℚ
deriving Repr

/-- adaptive_faiss_optimizer.AdaptiveFAISSOptimizer.analyze_search_quality
(the metrics computation; appending to the bounded history is state
handling outside these claims). -/
def analyzeSearchQuality (results : List Doc) (user_feedback : Option ℚ) :
    SearchQualityMetrics :=
  let diversity := calculateDiversity results
  { result_count := results.length
    diversity_score := diversity
    length_distribution := analyzeLengthDistribution results
    source_distribution := analyzeSourceDistribution results
    user_feedback := user_feedback
    overall_quality := calculateQualityScore results.length diversity user_feedback }

theorem calculateDiversity_bounds (results : List Doc) :
    0 ≤ calculateDiversity results ∧ calculateDiversity results ≤ 1 := by
  unfold calculateDiversity
  dsimp only
  split_ifs with h1 h2
  · norm_num
  all_goals {
    have hn : (0 : ℚ) < (results.length : ℚ) := by
      have h : 0 < results.length := by omega
      exact_mod_cast h
    have hs : ((results.map (fun d => d.source)).dedup.length : ℚ) ≤ (results.length : ℚ) := by
      have h := List.Sublist.length_le (List.dedup_sublist (results.map (fun d => d.source)))
      rw [List.length_map] at h
      exact_mod_cast h
    have hl : ((results.map (fun d => d.page_content.length)).dedup.length : ℚ) ≤
        (results.length : ℚ) := by
      have h := List.Sublist.length_le
        (List.dedup_sublist (results.map (fun d => d.page_content.length)))
      rw [List.length_map] at h
      exact_mod_cast h
    have hsd : (0 : ℚ) ≤
        ((results.map (fun d => d.source)).dedup.length : ℚ) / (results.length : ℚ) :=
      div_nonneg (by positivity) hn.le
    have hsd1 : ((results.map (fun d => d.source)).dedup.length : ℚ) / (results.length : ℚ) ≤ 1 :=
      (div_le_one hn).mpr hs
    have hld : (0 : ℚ) ≤
        ((results.map (fun d => d.page_content.length)).dedup.length : ℚ) / (results.length : ℚ) :=
      div_nonneg (by positivity) hn.le
    have hld1 : ((results.map (fun d => d.page_content.length)).dedup.length : ℚ) / (results.length : ℚ) ≤ 1 :=
      (div_le_one hn).mpr hl
    constructor
    · positivity
    · rw [div_le_one (by norm_num : (0:ℚ) < 2)]
      linarith
  }

/-- CLAIM C10: the diversity computation returns exactly 0 for every
result list with at most one document, and its value always lies in
[0, 1]. -/
theorem calculate_diversity_spec :
    (∀ results : List Doc, results.length ≤ 1 → calculateDiversity results = 0) ∧
    (∀ results : List Doc,
      0 ≤ calculateDiversity results ∧ calculateDiversity results ≤ 1) := by
  constructor
  · intro results h
    unfold calculateDiversity
    rw [if_pos h]
  · exact calculateDiversity_bounds

/-- A single-result document used as a concrete input. -/
def docX : Doc := { page_content := "x", url := "", title := "", source := "s" }

/-- Witness for C10: the theorem applied at a singleton list. -/
theorem calculate_diversity_spec_witness :
    ([docX] : List Doc).length ≤ 1 ∧ calculateDiversity [docX] = 0 ∧
    0 ≤ calculateDiversity [docX] ∧ calculateDiversity [docX] ≤ 1 :=
  ⟨by decide, calculate_diversity_spec.1 [docX] (by decide),
   (calculate_diversity_spec.2 [docX]).1, (calculate_diversity_spec.2 [docX]).2⟩

theorem calculateQualityScore_bounds (rc : ℕ) (d : ℚ) (fb : Option ℚ)
    (hd0 : 0 ≤ d) (hd1 : d ≤ 1)
    (hfb : ∀ f, fb = some f → 0 ≤ f ∧ f ≤ 1) :
    calculateQualityScore rc d fb ≤ 1 ∧
    (rc ≤ 16 → 0 ≤ calculateQualityScore rc d fb) := by
  have habs0 : 0 ≤ |(rc : ℚ) - 13/2| := abs_nonneg _
  have habs16 : rc ≤ 16 → |(rc : ℚ) - 13/2| ≤ 10 := by
    intro h
    rw [abs_le]
    have hc0 : (0:ℚ) ≤ (rc:ℚ) := Nat.cast_nonneg rc
    have hc16 : ((rc:ℚ)) ≤ 16 := by exact_mod_cast h
    constructor <;> linarith
  cases fb with
  | none =>
      unfold calculateQualityScore
      dsimp only
      rw [if_pos (by norm_num : (0:ℚ) < 4/10 + 3/10)]
      split_ifs with h1 h2
      · constructor
        · rw [div_le_one (by norm_num)]; linarith
        · intro _
          exact div_nonneg (by linarith) (by norm_num)
      · constructor
        · rw [div_le_one (by norm_num)]; linarith
        · intro hrc
          have h10 := habs16 hrc
          exact div_nonneg (by linarith) (by norm_num)
      · constructor
        · rw [div_le_one (by norm_num)]; linarith
        · intro _
          exact div_nonneg (by linarith) (by norm_num)
  | some f =>
      obtain ⟨hf0, hf1⟩ := hfb f rfl
      unfold calculateQualityScore
      dsimp only
      rw [if_pos (by norm_num : (0:ℚ) < 4/10 + 3/10 + 3/10)]
      split_ifs with h1 h2
      · constructor
        · rw [div_le_one (by norm_num)]; linarith
        · intro _
          exact div_nonneg (by linarith) (by norm_num)
      · constructor
        · rw [div_le_one (by norm_num)]; linarith
        · intro hrc
          have h10 := habs16 hrc
          exact div_nonneg (by linarith) (by norm_num)
      · constructor
        · rw [div_le_one (by norm_num)]; linarith
        · intro _
          exact div_nonneg (by linarith) (by norm_num)

/-- CLAIM C9, amended: provided any supplied user feedback lies in
[0, 1], the overall_quality of a SearchQualityMetrics record is always
at most 1, and is at least 0 (hence in [0, 1]) whenever the result
list has at most 16 documents; for 17 or more the count-closeness term
goes negative and can drive overall_quality below 0. -/
theorem overall_quality_bounds (results : List Doc) (fb : Option ℚ)
    (hfb : ∀ f, fb = some f → 0 ≤ f ∧ f ≤ 1) :
    (analyzeSearchQuality results fb).overall_quality ≤ 1 ∧
    (results.length ≤ 16 → 0 ≤ (analyzeSearchQuality results fb).overall_quality) := by
  have hd := calculateDiversity_bounds results
  have h := calculateQualityScore_bounds results.length (calculateDiversity results)
    fb hd.1 hd.2 hfb
  simpa [analyzeSearchQuality] using h

/-- Witness for C9's amended claim: the theorem applied at a singleton
result list with feedback 1/2. -/
theorem overall_quality_bounds_witness :
    (∀ f : ℚ, (some (1/2 : ℚ)) = some f → 0 ≤ f ∧ f ≤ 1) ∧
    (analyzeSearchQuality [docX] (some (1/2))).overall_quality ≤ 1 ∧
    ([docX] : List Doc).length ≤ 16 ∧
    0 ≤ (analyzeSearchQuality [docX] (some (1/2))).overall_quality := by
  have hfb : ∀ f : ℚ, (some (1/2 : ℚ)) = some f → 0 ≤ f ∧ f ≤ 1 := by
    intro f hf
    cases hf
    norm_num
  have h := overall_quality_bounds [docX] (some (1/2)) hfb
  exact ⟨hfb, h.1, by decide, h.2 (by decide)⟩

/-- 17 identical single-source, equal-length documents. -/
def results17 : List Doc :=
  [docX, docX, docX, docX, docX, docX, docX, docX, docX, docX, docX, docX,
   docX, docX, docX, docX, docX]

/-- CLAIM C9, counterexample: for 17 identical results and no user
feedback, overall_quality is negative — outside the claimed [0, 1]. -/
theorem overall_quality_negative_counterexample :
    (analyzeSearchQuality results17 none).overall_quality < 0 := by
  have h3 : results17.length = 17 := rfl
  have hdiv : calculateDiversity results17 = 1/34 := by
    have h1 : (results17.map (fun d => d.source)).dedup.length = 1 := rfl
    have h2 : (results17.map (fun d => d.page_content.length)).dedup.length = 1 := rfl
    unfold calculateDiversity
    dsimp only
    rw [h1, h2, h3]
    norm_num
  have hq : (analyzeSearchQuality results17 none).overall_quality =
      calculateQualityScore 17 (1/34) none := by
    simp only [analyzeSearchQuality]
    rw [hdiv, h3]
  rw [hq]
  unfold calculateQualityScore
  dsimp only
  rw [show |(((17:ℕ)):ℚ) - 13/2| = 21/2 by rw [abs_of_pos] <;> norm_num]
  norm_num

/-- Witness for C1's amended claim: the invariants theorem applied to
the concrete 12-hit reply with no original query, its membership
hypothesis discharged at the highest-scored chunk. -/
theorem semantic_search_invariants_witness :
    (⟨"c0", 1/(1+0), 0, "q1"⟩ : ScoredChunk) ∈
      semanticSearch qrs1 (3/10) none none 15 ∧
    (3/10 : ℚ) ≤ (⟨"c0", 1/(1+0), 0, "q1"⟩ : ScoredChunk).similarity_score ∧
    List.Sorted chunkGE (semanticSearch qrs1 (3/10) none none 15) ∧
    (semanticSearch qrs1 (3/10) none none 15).length ≤ 20 := by
  have hmem : (⟨"c0", 1/(1+0), 0, "q1"⟩ : ScoredChunk) ∈
      semanticSearch qrs1 (3/10) none none 15 := by
    have h : semanticSearch qrs1 (3/10) none none 15 =
        [⟨"c0", 1/(1+0), 0, "q1"⟩, ⟨"c1", 1/(1+0), 0, "q1"⟩, ⟨"c2", 1/(1+0), 0, "q1"⟩,
         ⟨"c3", 1/(1+0), 0, "q1"⟩, ⟨"c4", 1/(1+0), 0, "q1"⟩, ⟨"c5", 1/(1+0), 0, "q1"⟩,
         ⟨"c6", 1/(1+1), 1, "q1"⟩, ⟨"c7", 1/(1+1), 1, "q1"⟩, ⟨"c8", 1/(1+1), 1, "q1"⟩,
         ⟨"c9", 1/(1+1), 1, "q1"⟩, ⟨"c10", 1/(1+1), 1, "q1"⟩, ⟨"c11", 1/(1+1), 1, "q1"⟩] := by
      simp only [semanticSearch, fuseDedup_qrs1]
      rfl
    rw [h]
    exact List.mem_cons_self _ _
  have h := semantic_search_invariants qrs1 (3/10) none 15
  exact ⟨hmem, h.2.2.1 _ hmem, h.1, h.2.2.2⟩
